import Mathlib

/-!
# Verification of the human-browser bridge daemon

A shallow embedding, in Lean 4, of the pure core of the `human-browser`
repository: the structured error model (`src/shared/errors.ts`,
`src/shared/types.ts`), the reference snapshot formatter
(`vendor/agent-browser/ref_formatter.ts`), and the state-transition logic of
the bridge daemon (`src/daemon/app.ts`): snapshot gating, tab resolution,
action-target resolution, the pending-command correlation table, connection
waiters, and the HTTP status mapping.

JavaScript values that the daemon inspects with `typeof` checks are embedded
as the inductive `JSVal`; JavaScript numbers are embedded as `JNum`
(a finite integer or a non-finite value), which is faithful for the integer
tab ids the daemon manipulates.  `Map` and `Record` objects with unique keys
are embedded as association lists in insertion order.
-/

set_option autoImplicit false

namespace HumanBrowser

/-- A JSON-ish value appearing in error `details` maps. -/
inductive JVal where
  | str (s : String)
  | num (n : Int)
  | boolean (b : Bool)
  | undef
  deriving DecidableEq, Repr

/-- The closed error taxonomy of `src/shared/types.ts` (`ErrorCode`). -/
inductive ErrorCode where
  | DISCONNECTED
  | TIMEOUT
  | NO_SUCH_REF
  | STALE_SNAPSHOT
  | NO_ACTIVE_SNAPSHOT
  | BAD_REQUEST
  | EXTENSION_ERROR
  | UNAUTHORIZED
  | INTERNAL
  deriving DecidableEq, Repr

/-- `RecoveryHints` from `src/shared/types.ts`. -/
structure RecoveryHints where
  reconnect_required : Option Bool := none
  reset_session_recommended : Option Bool := none
  next_command : Option String := none
  deriving DecidableEq, Repr

/-- `StructuredError` from `src/shared/types.ts`; `details` is an ordered
record embedded as an association list. -/
structure StructuredError where
  code : ErrorCode
  message : String
  details : Option (List (String × JVal)) := none
  recovery : Option RecoveryHints := none
  deriving DecidableEq, Repr

/-- Lookup in an ordered-record association list (first match wins; keys are
unique by construction everywhere the daemon builds one). -/
def lookupRecord {α : Type} (l : List (String × α)) (k : String) : Option α :=
  match l with
  | [] => none
  | p :: rest => if p.1 = k then some p.2 else lookupRecord rest k

/-- `SnapshotNode` from `src/shared/types.ts`: one targetable page element as
reported by the extension. -/
structure SnapshotNode where
  role : String
  name : Option String := none
  selector : String
  suffix : Option String := none
  deriving DecidableEq, Repr

/-- `SnapshotRef` from `src/shared/types.ts`: one entry of a snapshot's refs
map. -/
structure SnapshotRef where
  selector : String
  role : String
  name : Option String := none
  nth : Option Nat := none
  deriving DecidableEq, Repr

/-! ## Reference snapshot formatter (`vendor/agent-browser/ref_formatter.ts`) -/

/-- Model of the JavaScript `toLowerCase()` builtin (ASCII case mapping),
character by character. -/
def toLowerString (s : String) : String :=
  String.mk (s.data.map Char.toLower)

/-- Model of the JavaScript `trim()` builtin: drop leading and trailing
whitespace. -/
def trimString (s : String) : String :=
  String.mk (((s.data.dropWhile Char.isWhitespace).reverse.dropWhile
    Char.isWhitespace).reverse)

/-- `normalizeName` from the formatter: trim, and collapse an empty result to
`undefined`. -/
def normalizeName (name : Option String) : Option String :=
  match name with
  | none => none
  | some s =>
    let trimmed := trimString s
    if trimmed.length > 0 then some trimmed else none

/-- `RoleNameTracker.getKey`: the `(role, normalized-name)` key string
`role + ":" + (name ?? "")`.  `role` is already lowercased by the caller. -/
def trackerKey (role : String) (name : Option String) : String :=
  role ++ ":" ++ name.getD ""

/-- The `(role, normalized-name)` key of a raw input node (lowercasing and
name normalization applied, exactly as the formatter's loop does before it
consults the tracker). -/
def nodeKey (n : SnapshotNode) : String :=
  trackerKey (toLowerString n.role) (normalizeName n.name)

/-- `escapeQuotes` from the formatter: `replaceAll` of the one-character
pattern `"` by `\"`, character by character. -/
def escapeQuotes (value : String) : String :=
  String.mk (value.data.foldr
    (fun c acc => if c = '\"' then '\\' :: '\"' :: acc else c :: acc) [])

/-- The single line the formatter renders for one node (`formatSnapshotWithRefs`,
body of the loop): role, quoted name when present, `[ref=...]`, `[nth=K]`
only when `K > 0`, then the suffix when truthy. -/
def renderLine (role : String) (name : Option String) (ref : String)
    (nth : Nat) (suffix : Option String) : String :=
  "- " ++ role
    ++ (match name with
        | some nm => " \"" ++ escapeQuotes nm ++ "\""
        | none => "")
    ++ " [ref=" ++ ref ++ "]"
    ++ (if nth > 0 then " [nth=" ++ toString nth ++ "]" else "")
    ++ (match suffix with
        | some sfx => if sfx = "" then "" else " " ++ sfx
        | none => "")

/-- `Map.set` on an insertion-ordered association list: replace the value at
an existing key in place, else append. -/
def setRecord {α : Type} : List (String × α) → String → α → List (String × α)
  | [], k, v => [(k, v)]
  | p :: rest, k, v => if p.1 = k then (k, v) :: rest else p :: setRecord rest k v

/-- `counts.get(key) ?? 0` on the tracker's counts map. -/
def countsGet (counts : List (String × Nat)) (k : String) : Nat :=
  (lookupRecord counts k).getD 0

/-- `refsByKey.get(key) ?? []` on the tracker's refs-by-key map. -/
def byKeyGet (byKey : List (String × List String)) (k : String) : List String :=
  (lookupRecord byKey k).getD []

/-- The mutable state of the formatter's main loop: the tracker's two maps
plus the accumulated lines and refs record. -/
structure PassState where
  counts : List (String × Nat)
  byKey : List (String × List String)
  lines : List String
  refs : List (String × SnapshotRef)
  deriving Repr

/-- One iteration of the formatter's main loop at 0-based index `i`:
`getNextIndex`, `trackRef`, the refs-record insertion and the line append. -/
def passStep (st : PassState) (i : Nat) (node : SnapshotNode) : PassState :=
  let role := (toLowerString node.role)
  let name := normalizeName node.name
  let ref := "e" ++ toString (i + 1)
  let key := trackerKey role name
  let nth := countsGet st.counts key
  { counts := setRecord st.counts key (nth + 1)
    byKey := setRecord st.byKey key (byKeyGet st.byKey key ++ [ref])
    lines := st.lines ++ [renderLine role name ref nth node.suffix]
    refs := st.refs ++ [(ref, { selector := node.selector, role := role,
                                name := name, nth := some nth })] }

/-- The formatter's main loop over the remaining nodes, `i` being the 0-based
index of the head. -/
def runPass : List SnapshotNode → Nat → PassState → PassState
  | [], _, st => st
  | n :: rest, i, st => runPass rest (i + 1) (passStep st i n)

/-- `removeNthFromNonDuplicates`: erase `nth` from every ref whose
`(role, name)` key is not a duplicate key of the tracker (fewer than two refs
recorded under it). -/
def removeNthFromNonDuplicates (refs : List (String × SnapshotRef))
    (byKey : List (String × List String)) : List (String × SnapshotRef) :=
  refs.map (fun p =>
    if 2 ≤ (byKeyGet byKey (trackerKey p.2.role p.2.name)).length then p
    else (p.1, { p.2 with nth := none }))

/-- The formatter's return type. -/
structure FormattedSnapshot where
  tree : String
  refs : List (String × SnapshotRef)
  deriving Repr

/-- The formatter's loop state before the first iteration: empty tracker
maps, no lines, no refs. -/
def initPassState : PassState :=
  { counts := [], byKey := [], lines := [], refs := [] }

/-- `formatSnapshotWithRefs` from `vendor/agent-browser/ref_formatter.ts`:
the main loop, then duplicate cleanup, then line joining. -/
def formatSnapshotWithRefs (nodes : List SnapshotNode) : FormattedSnapshot :=
  let final := runPass nodes 0 initPassState
  { tree := if final.lines = [] then "(no interactive elements)"
            else String.intercalate "\n" final.lines
    refs := removeNthFromNonDuplicates final.refs final.byKey }

/-! ## Daemon data model (`src/daemon/app.ts`, `src/shared/types.ts`) -/

/-- `SnapshotData` from `src/shared/types.ts`; the refs record is an
association list with unique keys `e1, e2, ...`. -/
structure SnapshotData where
  snapshot_id : String
  tab_id : Int
  tree : String
  refs : List (String × SnapshotRef)
  created_at : String
  deriving DecidableEq, Repr

/-- An embedded JavaScript number: a finite integer, or a non-finite value
(`NaN`/`Infinity`).  The daemon only ever manipulates integer-valued numbers
(tab ids, timeouts), so finite values are `Int`. -/
inductive JNum where
  | fin (n : Int)
  | nonfin
  deriving DecidableEq, Repr

/-- An embedded JavaScript value as inspected by the daemon's `typeof`
dispatch: a string, a number, or anything else. -/
inductive JSVal where
  | str (s : String)
  | num (n : JNum)
  | other
  deriving DecidableEq, Repr

/-- The command arguments record (`args`), restricted to the fields the
daemon's action path reads; a `none` field is an absent key. -/
structure Args where
  ref : Option JSVal := none
  selector : Option JSVal := none
  snapshot_id : Option JSVal := none
  tab_id : Option JSVal := none
  value : Option JSVal := none
  deriving DecidableEq, Repr

/-- One entry of the pending-command correlation table.  The source stores
the `command` and `timeout_ms` in the timer closure; they are carried in the
entry here so the timeout transition can build the same error. -/
structure PendingEntry where
  requestId : String
  command : String
  timeoutMs : Nat
  deriving DecidableEq, Repr

/-- One `ConnectionWaiter`, identified by the identity of its closure in the
source; embedded with an explicit unique id. -/
structure WaiterEntry where
  id : Nat
  timeoutMs : Nat
  deriving DecidableEq, Repr

/-- A daemon event record (`logEvent`), reduced to the fields the embedding
reasons about. -/
structure EventEntry where
  kind : String
  message : String
  deriving DecidableEq, Repr

/-- `config.diagnostics` from `DaemonConfig`. -/
structure DiagnosticsConfig where
  max_events : Nat
  deriving DecidableEq, Repr

/-- The daemon's `RuntimeState`, restricted to the fields the embedded
transitions read or write.  `socketOpen` stands for
`extensionSocket && extensionSocket.readyState === OPEN`. -/
structure RuntimeState where
  socketOpen : Bool
  lastDisconnectReason : Option String := none
  reconnectAttempts : Nat := 0
  selectedTabId : Option Int := none
  latestSnapshot : Option SnapshotData := none
  pendingCommands : List PendingEntry := []
  connectionWaiters : List WaiterEntry := []
  events : List EventEntry := []
  disconnectHistory : List String := []
  maxEvents : Nat := 100
  deriving DecidableEq, Repr

/-- `QueueMode` from `src/shared/types.ts`. -/
inductive QueueMode where
  | hold
  | fail
  deriving DecidableEq, Repr

/-- The two ref-addressed action commands sharing the snapshot-gated path. -/
inductive ActionCmd where
  | click
  | fill
  deriving DecidableEq, Repr

/-- The command name used in error messages. -/
def ActionCmd.name : ActionCmd → String
  | .click => "click"
  | .fill => "fill"

/-! ## Error constructors (each mirrors one `HBError` construction site) -/

/-- The `NO_ACTIVE_SNAPSHOT` error of `resolveSnapshotForAction`. -/
def noActiveSnapshotError : StructuredError :=
  { code := .NO_ACTIVE_SNAPSHOT
    message := "No active snapshot. Run snapshot first."
    details := none
    recovery := some { next_command := some "human-browser snapshot" } }

/-- The `STALE_SNAPSHOT` error of `resolveSnapshotForAction`, with both ids
in `details`. -/
def staleSnapshotError (latest requested : String) : StructuredError :=
  { code := .STALE_SNAPSHOT
    message := "Snapshot mismatch. latest=" ++ latest ++ ", requested=" ++ requested
    details := some [("latest_snapshot_id", .str latest),
                     ("requested_snapshot_id", .str requested)]
    recovery := some { next_command := some "human-browser snapshot" } }

/-- The `NO_SUCH_REF` error of the click/fill ref path. -/
def noSuchRefError (ref snapshotId : String) : StructuredError :=
  { code := .NO_SUCH_REF
    message := "Ref not found: " ++ ref
    details := some [("ref", .str ref), ("snapshot_id", .str snapshotId)]
    recovery := some { next_command := some "human-browser snapshot" } }

/-- The `BAD_REQUEST` error of `getRequiredSnapshotId`. -/
def snapshotIdRequiredError (cmd : ActionCmd) : StructuredError :=
  { code := .BAD_REQUEST
    message := cmd.name ++ " with ref requires args.snapshot_id"
    details := none
    recovery := some { next_command := some "human-browser snapshot" } }

/-- The `BAD_REQUEST` error of `resolveActionTarget` when both `args.ref` and
`args.selector` are given. -/
def bothRefAndSelectorError (cmd : ActionCmd) : StructuredError :=
  { code := .BAD_REQUEST
    message := cmd.name ++ " supports either args.ref or args.selector, not both" }

/-- The `BAD_REQUEST` error of `resolveActionTarget` on a malformed explicit
`args.ref`. -/
def invalidRefFormatError (cmd : ActionCmd) (raw : String) : StructuredError :=
  { code := .BAD_REQUEST
    message := "Invalid ref format for " ++ cmd.name ++ ": " ++ raw }

/-- The `BAD_REQUEST` error of `resolveActionTarget` when neither `args.ref`
nor `args.selector` is given. -/
def targetRequiredError (cmd : ActionCmd) : StructuredError :=
  { code := .BAD_REQUEST
    message := cmd.name ++ " requires args.ref or args.selector" }

/-- The `BAD_REQUEST` error of `getStringField`. -/
def stringFieldError (field : String) : StructuredError :=
  { code := .BAD_REQUEST
    message := "Field must be a non-empty string: " ++ field }

/-- The `TIMEOUT` error raised by a pending command's deadline timer in
`sendBridgeCommand`, tagged `phase: extension_response`. -/
def commandTimeoutError (command : String) (timeoutMs : Nat) : StructuredError :=
  { code := .TIMEOUT
    message := "Extension timeout while executing command: " ++ command
    details := some [("phase", .str "extension_response"),
                     ("command", .str command),
                     ("timeout_ms", .num timeoutMs)]
    recovery := some { next_command := some "human-browser diagnose" } }

/-- The `TIMEOUT` error raised by a connection waiter's deadline timer in
`ensureBridgeConnected`, tagged `phase: wait_for_extension`. -/
def waitTimeoutError (timeoutMs : Nat) : StructuredError :=
  { code := .TIMEOUT
    message := "Timed out while waiting for extension to reconnect"
    details := some [("phase", .str "wait_for_extension"),
                     ("timeout_ms", .num timeoutMs)]
    recovery := some { reconnect_required := some true
                       next_command := some "human-browser diagnose" } }

/-- The `DISCONNECTED` error of `ensureBridgeConnected` under
`queueMode = fail`. -/
def disconnectedIdleError (lastReason : Option String) : StructuredError :=
  { code := .DISCONNECTED
    message := "Extension is disconnected"
    details := some [("reason", match lastReason with
                                | some r => .str r
                                | none => .undef)]
    recovery := some { reconnect_required := some true
                       next_command := some "human-browser reconnect" } }

/-- The `DISCONNECTED` error broadcast to every pending command by the bridge
close handler. -/
def bridgeClosedError (reason : String) : StructuredError :=
  { code := .DISCONNECTED
    message := "Bridge disconnected while command was running"
    details := some [("reason", .str reason)]
    recovery := some { reconnect_required := some true
                       next_command := some "human-browser reconnect" } }

/-- The `EXTENSION_ERROR` built by the RESULT handler from a failed reply's
error payload (`extension_code` first, then the remote details spread in). -/
structure ExtErrorPayload where
  code : String
  message : String
  details : Option (List (String × JVal)) := none
  deriving DecidableEq, Repr

/-- The `EXTENSION_ERROR` of `handleExtensionMessage`'s RESULT case. -/
def extensionResultError (e : Option ExtErrorPayload) : StructuredError :=
  { code := .EXTENSION_ERROR
    message := match e with
               | some err => err.message
               | none => "Extension command failed"
    details := some (("extension_code", match e with
                                        | some err => .str err.code
                                        | none => .undef)
                     :: (match e with
                         | some err => err.details.getD []
                         | none => [])) }

/-! ## Session-state helpers (`src/daemon/app.ts`) -/

/-- `resolveSnapshotForAction`: no retained snapshot fails
`NO_ACTIVE_SNAPSHOT`; a supplied string `snapshot_id` differing from the
retained one fails `STALE_SNAPSHOT`; otherwise the retained snapshot is
returned.  `snapshotIdArg` is the `args.snapshot_id` value the caller passed
(`undefined` or non-string falls back to the retained id, as in the
source's `typeof` check). -/
def resolveSnapshotForAction (st : RuntimeState) (snapshotIdArg : Option JSVal) :
    Except StructuredError SnapshotData :=
  match st.latestSnapshot with
  | none => .error noActiveSnapshotError
  | some snapshot =>
    let requested := match snapshotIdArg with
                     | some (.str s) => s
                     | _ => snapshot.snapshot_id
    if requested ≠ snapshot.snapshot_id then
      .error (staleSnapshotError snapshot.snapshot_id requested)
    else
      .ok snapshot

/-- `getRequiredSnapshotId`: `args.snapshot_id` must be a non-empty string. -/
def getRequiredSnapshotId (args : Args) (cmd : ActionCmd) :
    Except StructuredError String :=
  match args.snapshot_id with
  | some (.str s) => if s.length = 0 then .error (snapshotIdRequiredError cmd) else .ok s
  | _ => .error (snapshotIdRequiredError cmd)

/-- The numeric value of a decimal digit sequence. -/
def digitsToNat (ds : List Char) : Nat :=
  ds.foldl (fun a c => a * 10 + (c.toNat - '0'.toNat)) 0

/-- Model of the JavaScript `Number(...)` conversion on strings, for the
integer-valued strings the daemon meets: trim; an empty remainder is `0`; an
optional sign followed by decimal digits is that integer; anything else is
`NaN` (non-finite). -/
def stringToNumber (s : String) : JNum :=
  let t := trimString s
  if t = "" then .fin 0
  else
    match t.toList with
    | '-' :: ds => if ds ≠ [] ∧ ds.all Char.isDigit
                   then .fin (-(Int.ofNat (digitsToNat ds))) else .nonfin
    | '+' :: ds => if ds ≠ [] ∧ ds.all Char.isDigit
                   then .fin (Int.ofNat (digitsToNat ds)) else .nonfin
    | ds => if ds.all Char.isDigit
            then .fin (Int.ofNat (digitsToNat ds)) else .nonfin

/-- The target a command is forwarded with: an explicit tab id or the
remote-queried `"active"` tab. -/
inductive TabTarget where
  | tab (id : Int)
  | active
  deriving DecidableEq, Repr

/-- The fallback chain of `resolveTabForAction` once the explicit argument
fails to resolve: selected tab, then latest snapshot's tab, then `"active"`. -/
def tabFallback (st : RuntimeState) : TabTarget :=
  match st.selectedTabId with
  | some t => .tab t
  | none =>
    match st.latestSnapshot with
    | some snap => .tab snap.tab_id
    | none => .active

/-- `resolveTabForAction`: a finite number wins; a string that is `"active"`
or converts to a finite number wins; otherwise the fallback chain. -/
def resolveTabForAction (st : RuntimeState) (args : Args) : TabTarget :=
  match args.tab_id with
  | some (.num (.fin n)) => .tab n
  | some (.str s) =>
    if s = "active" then .active
    else
      match stringToNumber s with
      | .fin n => .tab n
      | .nonfin => tabFallback st
  | _ => tabFallback st

/-- `parseRefArg`: accept `@e<digits>`, `ref=e<digits>` or `e<digits>`,
returning the bare `e<digits>` form. -/
def parseRefArg (raw : String) : Option String :=
  match raw.toList with
  | '@' :: 'e' :: ds =>
    if ds ≠ [] ∧ ds.all Char.isDigit then some (String.mk ('e' :: ds)) else none
  | 'r' :: 'e' :: 'f' :: '=' :: 'e' :: ds =>
    if ds ≠ [] ∧ ds.all Char.isDigit then some (String.mk ('e' :: ds)) else none
  | 'e' :: ds =>
    if ds ≠ [] ∧ ds.all Char.isDigit then some raw else none
  | _ => none

/-- The resolved target of a click/fill command. -/
inductive ActionTarget where
  | ref (r : String)
  | selector (s : String)
  deriving DecidableEq, Repr

/-- JavaScript truthiness of a string-typed argument: collapse an absent,
non-string, or empty-string value to `none`. -/
def truthyString (v : Option JSVal) : Option String :=
  match v with
  | some (.str s) => if s = "" then none else some s
  | _ => none

/-- `resolveActionTarget`: both `args.ref` and `args.selector` truthy is
`BAD_REQUEST`; a truthy `args.ref` must parse as a ref; a truthy
`args.selector` matching ref syntax is rerouted to the ref path, otherwise it
is a CSS selector; neither is `BAD_REQUEST`. -/
def resolveActionTarget (args : Args) (cmd : ActionCmd) :
    Except StructuredError ActionTarget :=
  match truthyString args.ref, truthyString args.selector with
  | some _, some _ => .error (bothRefAndSelectorError cmd)
  | some refRaw, none =>
    match parseRefArg refRaw with
    | some r => .ok (.ref r)
    | none => .error (invalidRefFormatError cmd refRaw)
  | none, some selectorRaw =>
    match parseRefArg selectorRaw with
    | some r => .ok (.ref r)
    | none => .ok (.selector selectorRaw)
  | none, none => .error (targetRequiredError cmd)

/-- `getStringField(args, 'value')` as used by the fill command (no
fallback). -/
def getStringFieldValue (args : Args) : Except StructuredError String :=
  match args.value with
  | some (.str s) => if s.length = 0 then .error (stringFieldError "value") else .ok s
  | _ => .error (stringFieldError "value")

/-- The bridge command a click resolves to before dispatch: either a
ref-translated selector on the snapshot's tab, or a raw selector on the
resolved tab target. -/
inductive ClickPlan where
  | byRef (snapshot_id : String) (tab_id : Int) (ref : String) (selector : String)
  | bySelector (tab : TabTarget) (selector : String)
  deriving DecidableEq, Repr

/-- The `click` case of `executeCommand` up to the bridge dispatch: target
resolution, snapshot gating, ref translation. -/
def clickPlan (st : RuntimeState) (args : Args) : Except StructuredError ClickPlan :=
  match resolveActionTarget args .click with
  | .error e => .error e
  | .ok (.ref r) =>
    match getRequiredSnapshotId args .click with
    | .error e => .error e
    | .ok sid =>
      match resolveSnapshotForAction st (some (.str sid)) with
      | .error e => .error e
      | .ok snap =>
        match lookupRecord snap.refs r with
        | none => .error (noSuchRefError r snap.snapshot_id)
        | some refData => .ok (.byRef snap.snapshot_id snap.tab_id r refData.selector)
  | .ok (.selector sel) => .ok (.bySelector (resolveTabForAction st args) sel)

/-- The bridge command a fill resolves to before dispatch. -/
inductive FillPlan where
  | byRef (snapshot_id : String) (tab_id : Int) (ref : String) (selector : String)
      (value : String)
  | bySelector (tab : TabTarget) (selector : String) (value : String)
  deriving DecidableEq, Repr

/-- The `fill` case of `executeCommand` up to the bridge dispatch: the
`value` field is validated first, then the same gating as click. -/
def fillPlan (st : RuntimeState) (args : Args) : Except StructuredError FillPlan :=
  match getStringFieldValue args with
  | .error e => .error e
  | .ok value =>
    match resolveActionTarget args .fill with
    | .error e => .error e
    | .ok (.ref r) =>
      match getRequiredSnapshotId args .fill with
      | .error e => .error e
      | .ok sid =>
        match resolveSnapshotForAction st (some (.str sid)) with
        | .error e => .error e
        | .ok snap =>
          match lookupRecord snap.refs r with
          | none => .error (noSuchRefError r snap.snapshot_id)
          | some refData =>
            .ok (.byRef snap.snapshot_id snap.tab_id r refData.selector value)
    | .ok (.selector sel) => .ok (.bySelector (resolveTabForAction st args) sel value)

/-! ## Command dispatcher, correlator and channel manager transitions

Asynchronous callbacks in `src/daemon/app.ts` (the `RESULT` message handler,
a pending command's deadline timer, a waiter's deadline timer, and the bridge
`close` handler) are embedded as pure state transitions returning the new
state together with what was delivered to suspended callers.  A promise in
the source is settled at most once; an entry's presence in the correlation
table coincides with its timer being live and its promise unsettled, so a
transition whose entry is absent delivers nothing. -/

/-- What a settled pending command's caller receives. -/
inductive CommandOutcome where
  | resolved (result : List (String × JVal))
  | rejected (e : StructuredError)
  deriving DecidableEq, Repr

/-- An agent `RESULT` envelope. -/
structure ResultEnvelope where
  request_id : String
  ok : Bool
  result : Option (List (String × JVal)) := none
  error : Option ExtErrorPayload := none
  deriving DecidableEq, Repr

/-- Correlation-table lookup by `request_id`. -/
def findPending (st : RuntimeState) (rid : String) : Option PendingEntry :=
  st.pendingCommands.find? (fun p => p.requestId = rid)

/-- `Map.delete` on the correlation table (keys are unique fresh UUIDs, so
filtering is the same as deleting the one entry). -/
def removePending (l : List PendingEntry) (rid : String) : List PendingEntry :=
  l.filter (fun p => p.requestId ≠ rid)

/-- `truncateHistory` on one capped list: keep the last `max` entries when
the cap is exceeded (`slice(-max)`). -/
def truncateList {α : Type} (maxEvents : Nat) (l : List α) : List α :=
  if maxEvents < l.length then l.drop (l.length - maxEvents) else l

/-- The event `logEvent` records for a reply with an unknown `request_id`. -/
def orphanResultEvent : EventEntry :=
  { kind := "bridge.orphan_result", message := "Result for unknown request_id" }

/-- The synchronous registration step of `sendBridgeCommand`: store a fresh
`PendingCommand` under its `request_id` (the socket send and logging are
I/O). -/
def registerPending (st : RuntimeState) (rid command : String) (timeoutMs : Nat) :
    RuntimeState :=
  { st with pendingCommands := st.pendingCommands ++ [⟨rid, command, timeoutMs⟩] }

/-- The `RESULT` case of `handleExtensionMessage`: an unknown `request_id` is
logged as an orphan and delivers nothing; a known one clears its timer,
leaves the table, and resolves with the reply's result or rejects with
`EXTENSION_ERROR`. -/
def handleResultMessage (st : RuntimeState) (env : ResultEnvelope) :
    RuntimeState × Option CommandOutcome :=
  match findPending st env.request_id with
  | none =>
    ({ st with events := truncateList st.maxEvents (st.events ++ [orphanResultEvent]) },
     none)
  | some _ =>
    let stNext := { st with pendingCommands := removePending st.pendingCommands env.request_id }
    if env.ok then
      (stNext, some (.resolved (env.result.getD [])))
    else
      (stNext, some (.rejected (extensionResultError env.error)))

/-- The deadline-timer callback of a pending command in `sendBridgeCommand`:
drop the entry and reject with `TIMEOUT{phase: extension_response}`.  The
timer only fires while the entry is live (a settled command cleared it), so
an absent entry delivers nothing. -/
def handleCommandTimeout (st : RuntimeState) (rid : String) :
    RuntimeState × Option StructuredError :=
  match findPending st rid with
  | none => (st, none)
  | some p =>
    ({ st with pendingCommands := removePending st.pendingCommands rid },
     some (commandTimeoutError p.command p.timeoutMs))

/-- `rejectAllPending`: every pending command is rejected with the given
error and the table is emptied. -/
def rejectAllPending (st : RuntimeState) (e : StructuredError) :
    RuntimeState × List (String × StructuredError) :=
  ({ st with pendingCommands := [] },
   st.pendingCommands.map (fun p => (p.requestId, e)))

/-- The event `logEvent` records on bridge disconnect. -/
def bridgeDisconnectedEvent : EventEntry :=
  { kind := "bridge.disconnected", message := "Extension bridge disconnected" }

/-- The bridge socket `close` handler in `onExtensionConnected`: compute the
effective reason (`close_code_<code>` when the reason buffer is empty), clear
the connection handle, record the reason, bump the reconnect counter, append
histories, then bulk-reject every pending command with `DISCONNECTED` and
`recovery.reconnect_required = true`. -/
def onSocketClose (st : RuntimeState) (code : Int) (reasonRaw : String) :
    RuntimeState × List (String × StructuredError) :=
  let reason := if reasonRaw = "" then "close_code_" ++ toString code else reasonRaw
  let stClosed : RuntimeState :=
    { st with
      socketOpen := false
      lastDisconnectReason := some reason
      reconnectAttempts := st.reconnectAttempts + 1
      disconnectHistory := truncateList st.maxEvents (st.disconnectHistory ++ [reason])
      events := truncateList st.maxEvents (st.events ++ [bridgeDisconnectedEvent]) }
  rejectAllPending stClosed (bridgeClosedError reason)

/-- Outcome of `ensureBridgeConnected` as seen by the calling command. -/
inductive EnsureResult where
  | proceed
  | rejectedNow (e : StructuredError)
  | waiting (waiterId : Nat)
  deriving DecidableEq, Repr

/-- `ensureBridgeConnected`: connected returns immediately; disconnected with
`queueMode = fail` rejects `DISCONNECTED` at once; disconnected with
`queueMode = hold` registers a `ConnectionWaiter` with a `timeoutMs`
deadline.  `freshId` identifies the new waiter closure. -/
def ensureBridgeConnected (st : RuntimeState) (timeoutMs : Nat) (queueMode : QueueMode)
    (freshId : Nat) : RuntimeState × EnsureResult :=
  if st.socketOpen then
    (st, .proceed)
  else
    match queueMode with
    | .fail => (st, .rejectedNow (disconnectedIdleError st.lastDisconnectReason))
    | .hold =>
      ({ st with connectionWaiters := st.connectionWaiters ++ [⟨freshId, timeoutMs⟩] },
       .waiting freshId)

/-- Waiter-list lookup by waiter id. -/
def findWaiter (st : RuntimeState) (wid : Nat) : Option WaiterEntry :=
  st.connectionWaiters.find? (fun w => w.id = wid)

/-- The deadline-timer callback of a `ConnectionWaiter` in
`ensureBridgeConnected`: remove the waiter from the list and reject with
`TIMEOUT{phase: wait_for_extension}`.  A waiter already resolved by a new
connection had its timer cleared, so an absent waiter delivers nothing. -/
def handleWaiterTimeout (st : RuntimeState) (wid : Nat) :
    RuntimeState × Option StructuredError :=
  match findWaiter st wid with
  | none => (st, none)
  | some w =>
    ({ st with connectionWaiters := st.connectionWaiters.filter (fun e => e.id ≠ wid) },
     some (waitTimeoutError w.timeoutMs))

/-- `resolveConnectionWaiters`: when a connection becomes authoritative every
waiter is resolved in arrival order and the list is emptied. -/
def resolveConnectionWaiters (st : RuntimeState) : RuntimeState × List Nat :=
  ({ st with connectionWaiters := [] },
   st.connectionWaiters.map (fun w => w.id))

/-! ## HTTP command gateway (`handleHttpRequest`) -/

/-- An incoming HTTP request, reduced to the routing-relevant fields. -/
structure HttpRequest where
  method : String
  url : String
  deriving DecidableEq, Repr

/-- The body of an HTTP response from the gateway. -/
inductive HttpBody where
  | health
  | success
  | failure (e : StructuredError)
  deriving DecidableEq, Repr

/-- The `BAD_REQUEST` error body of the gateway's not-found branch. -/
def notFoundError : StructuredError :=
  { code := .BAD_REQUEST, message := "Not found" }

/-- `handleHttpRequest`: route `GET /health` and `POST /v1/command`; any
other method/path is answered 404 with a `BAD_REQUEST` error body.  The
command branch's authorize/parse/execute pipeline is abstracted by its
outcome `exec`; a failure is serialized with status 401 exactly when its
code is `UNAUTHORIZED`, 400 otherwise. -/
def handleHttpRequest (req : HttpRequest) (exec : Except StructuredError Unit) :
    Nat × HttpBody :=
  if req.method = "GET" ∧ req.url = "/health" then
    (200, .health)
  else if ¬(req.method = "POST" ∧ req.url = "/v1/command") then
    (404, .failure notFoundError)
  else
    match exec with
    | .ok _ => (200, .success)
    | .error e => (if e.code = .UNAUTHORIZED then 401 else 400, .failure e)

/-! ## Specification-side descriptions of the formatter

The following definitions transcribe the spec's words about the formatter
(spec §4.4): the `(role, normalized-name)` occurrence count in input order,
and the entry/line the spec says the `i`-th node receives.  The theorems
below compare them with the loop implementation above. -/

/-- The number of nodes in `l` whose `(role, normalized-name)` key is `k`. -/
def countKey : List SnapshotNode → String → Nat
  | [], _ => 0
  | n :: rest, k => (if nodeKey n = k then 1 else 0) + countKey rest k

/-- Spec-side: the refs entry the `i`-th node (0-based) should receive — ref
`"e" + (1-based index)`, and `nth` equal to the node's zero-based occurrence
index within its key group, counted in input order. -/
def specRefsEntry (nodes : List SnapshotNode) (i : Nat) :
    Option (String × SnapshotRef) :=
  (nodes[i]?).map (fun n =>
    ("e" ++ toString (i + 1),
     { selector := n.selector
       role := (toLowerString n.role)
       name := normalizeName n.name
       nth := some (countKey (nodes.take i) (nodeKey n)) }))

/-- Spec-side: the tree line the `i`-th node should receive. -/
def specLine (nodes : List SnapshotNode) (i : Nat) : Option String :=
  (nodes[i]?).map (fun n =>
    renderLine (toLowerString n.role) (normalizeName n.name) ("e" ++ toString (i + 1))
      (countKey (nodes.take i) (nodeKey n)) n.suffix)

/-- The loop invariant of `runPass`: after the prefix `pre` has been
processed, the tracker's counts and refs-by-key maps hold the per-key
occurrence counts over `pre`, and the accumulated refs and lines agree with
the spec-side description of `pre`. -/
structure PassInv (pre : List SnapshotNode) (st : PassState) : Prop where
  refs_len : st.refs.length = pre.length
  lines_len : st.lines.length = pre.length
  counts_spec : ∀ k, countsGet st.counts k = countKey pre k
  byKey_spec : ∀ k, (byKeyGet st.byKey k).length = countKey pre k
  refs_spec : ∀ i, st.refs[i]? = specRefsEntry pre i
  lines_spec : ∀ i, st.lines[i]? = specLine pre i

theorem lookupRecord_setRecord {α : Type} (l : List (String × α)) (k kq : String)
    (v : α) :
    lookupRecord (setRecord l k v) kq = if k = kq then some v else lookupRecord l kq := by
  induction l with
  | nil => simp [setRecord, lookupRecord]
  | cons p rest ih =>
    by_cases hp : p.1 = k
    · by_cases hk : k = kq
      · simp [setRecord, lookupRecord, hp, hk]
      · have hpq : ¬(p.1 = kq) := by
          intro hh
          exact hk ((hp.symm.trans hh))
        simp [setRecord, lookupRecord, hp, hk, hpq]
    · by_cases hq : p.1 = kq
      · have hkq : ¬(k = kq) := by
          intro hh
          exact hp (hq.trans hh.symm)
        have hqk : ¬(kq = k) := by
          intro hh
          exact hkq hh.symm
        simp [setRecord, lookupRecord, hp, hq, hkq, hqk]
      · simp [setRecord, lookupRecord, hp, hq, ih]

theorem countsGet_setRecord (l : List (String × Nat)) (k kq : String) (v : Nat) :
    countsGet (setRecord l k v) kq = if k = kq then v else countsGet l kq := by
  unfold countsGet
  rw [lookupRecord_setRecord]
  by_cases h : k = kq <;> simp [h]

theorem byKeyGet_setRecord (l : List (String × List String)) (k kq : String)
    (v : List String) :
    byKeyGet (setRecord l k v) kq = if k = kq then v else byKeyGet l kq := by
  unfold byKeyGet
  rw [lookupRecord_setRecord]
  by_cases h : k = kq <;> simp [h]

theorem countKey_append (l₁ l₂ : List SnapshotNode) (k : String) :
    countKey (l₁ ++ l₂) k = countKey l₁ k + countKey l₂ k := by
  induction l₁ with
  | nil => simp [countKey]
  | cons n rest ih => simp [countKey, ih, Nat.add_assoc]

theorem countKey_snoc (pre : List SnapshotNode) (n : SnapshotNode) (k : String) :
    countKey (pre ++ [n]) k = countKey pre k + (if nodeKey n = k then 1 else 0) := by
  simp [countKey_append, countKey]

theorem specRefsEntry_snoc_lt (pre : List SnapshotNode) (n : SnapshotNode) (i : Nat)
    (h : i < pre.length) :
    specRefsEntry (pre ++ [n]) i = specRefsEntry pre i := by
  unfold specRefsEntry
  rw [List.getElem?_append_left h, List.take_append_of_le_length (le_of_lt h)]

theorem specLine_snoc_lt (pre : List SnapshotNode) (n : SnapshotNode) (i : Nat)
    (h : i < pre.length) :
    specLine (pre ++ [n]) i = specLine pre i := by
  unfold specLine
  rw [List.getElem?_append_left h, List.take_append_of_le_length (le_of_lt h)]

theorem specRefsEntry_snoc_eq (pre : List SnapshotNode) (n : SnapshotNode) :
    specRefsEntry (pre ++ [n]) pre.length =
      some ("e" ++ toString (pre.length + 1),
            { selector := n.selector
              role := (toLowerString n.role)
              name := normalizeName n.name
              nth := some (countKey pre (nodeKey n)) }) := by
  unfold specRefsEntry
  rw [List.getElem?_concat_length, List.take_append_of_le_length (le_refl _)]
  simp

theorem specLine_snoc_eq (pre : List SnapshotNode) (n : SnapshotNode) :
    specLine (pre ++ [n]) pre.length =
      some (renderLine (toLowerString n.role) (normalizeName n.name)
        ("e" ++ toString (pre.length + 1)) (countKey pre (nodeKey n)) n.suffix) := by
  unfold specLine
  rw [List.getElem?_concat_length, List.take_append_of_le_length (le_refl _)]
  simp

theorem specRefsEntry_none (nodes : List SnapshotNode) (i : Nat)
    (h : nodes.length ≤ i) : specRefsEntry nodes i = none := by
  unfold specRefsEntry
  rw [List.getElem?_eq_none_iff.mpr h]
  rfl

theorem specLine_none (nodes : List SnapshotNode) (i : Nat)
    (h : nodes.length ≤ i) : specLine nodes i = none := by
  unfold specLine
  rw [List.getElem?_eq_none_iff.mpr h]
  rfl

theorem passStep_inv (pre : List SnapshotNode) (st : PassState) (n : SnapshotNode)
    (h : PassInv pre st) : PassInv (pre ++ [n]) (passStep st pre.length n) := by
  have hkey : trackerKey (toLowerString n.role) (normalizeName n.name) = nodeKey n := rfl
  constructor
  · simp [passStep, h.refs_len]
  · simp [passStep, h.lines_len]
  · intro k
    simp only [passStep, hkey]
    rw [countsGet_setRecord, countKey_snoc]
    by_cases hk : nodeKey n = k
    · subst hk
      simp [h.counts_spec]
    · simp [hk, h.counts_spec k]
  · intro k
    simp only [passStep, hkey]
    rw [byKeyGet_setRecord, countKey_snoc]
    by_cases hk : nodeKey n = k
    · subst hk
      simp [h.byKey_spec]
    · simp [hk, h.byKey_spec k]
  · intro i
    rcases Nat.lt_trichotomy i pre.length with hlt | heq | hgt
    · have hi : i < st.refs.length := h.refs_len ▸ hlt
      simp only [passStep]
      rw [List.getElem?_append_left hi, h.refs_spec i, specRefsEntry_snoc_lt pre n i hlt]
    · subst heq
      simp only [passStep, hkey]
      rw [specRefsEntry_snoc_eq, ← h.refs_len, List.getElem?_concat_length]
      simp [h.counts_spec, h.refs_len]
    · have h1 : (pre ++ [n]).length ≤ i := by
        simp only [List.length_append, List.length_singleton]
        omega
      simp only [passStep]
      rw [specRefsEntry_none _ _ h1, List.getElem?_eq_none_iff.mpr]
      simp only [List.length_append, List.length_singleton, h.refs_len]
      omega
  · intro i
    rcases Nat.lt_trichotomy i pre.length with hlt | heq | hgt
    · have hi : i < st.lines.length := h.lines_len ▸ hlt
      simp only [passStep]
      rw [List.getElem?_append_left hi, h.lines_spec i, specLine_snoc_lt pre n i hlt]
    · subst heq
      simp only [passStep, hkey]
      rw [specLine_snoc_eq, ← h.lines_len, List.getElem?_concat_length]
      simp [h.counts_spec, h.lines_len]
    · have h1 : (pre ++ [n]).length ≤ i := by
        simp only [List.length_append, List.length_singleton]
        omega
      simp only [passStep]
      rw [specLine_none _ _ h1, List.getElem?_eq_none_iff.mpr]
      simp only [List.length_append, List.length_singleton, h.lines_len]
      omega

theorem runPass_inv (nodes : List SnapshotNode) :
    ∀ (pre : List SnapshotNode) (st : PassState), PassInv pre st →
      PassInv (pre ++ nodes) (runPass nodes pre.length st) := by
  induction nodes with
  | nil =>
    intro pre st h
    simpa [runPass] using h
  | cons n rest ih =>
    intro pre st h
    have h3 := ih (pre ++ [n]) (passStep st pre.length n) (passStep_inv pre st n h)
    have hx : (pre ++ [n]).length = pre.length + 1 := by simp
    rw [hx] at h3
    have hy : (pre ++ [n]) ++ rest = pre ++ (n :: rest) := by simp
    rw [hy] at h3
    simpa [runPass] using h3

theorem passInv_init : PassInv [] initPassState := by
  refine ⟨rfl, rfl, ?_, ?_, ?_, ?_⟩
  · intro k
    rfl
  · intro k
    rfl
  · intro i
    simp [initPassState, specRefsEntry]
  · intro i
    simp [initPassState, specLine]

theorem formatPass_inv (nodes : List SnapshotNode) :
    PassInv nodes (runPass nodes 0 initPassState) := by
  have h := runPass_inv nodes [] initPassState passInv_init
  simpa using h

/-! ## Formatter claims -/

/-- The nth-free head of a rendered line: role, quoted name, `[ref=eN]`. -/
def lineHead (n : SnapshotNode) (i : Nat) : String :=
  "- " ++ (toLowerString n.role)
    ++ (match normalizeName n.name with
        | some nm => " \"" ++ escapeQuotes nm ++ "\""
        | none => "")
    ++ " [ref=" ++ ("e" ++ toString (i + 1)) ++ "]"

/-- The suffix part of a rendered line. -/
def lineTail (n : SnapshotNode) : String :=
  match n.suffix with
  | some sfx => if sfx = "" then "" else " " ++ sfx
  | none => ""

/-- Claim C5: the snapshot formatter is deterministic — two calls of
`formatSnapshotWithRefs` on identical input return byte-identical tree
strings and equal refs maps. -/
theorem claim_C5_formatter_deterministic (ns1 ns2 : List SnapshotNode)
    (h : ns1 = ns2) :
    (formatSnapshotWithRefs ns1).tree = (formatSnapshotWithRefs ns2).tree ∧
    (formatSnapshotWithRefs ns1).refs = (formatSnapshotWithRefs ns2).refs := by
  subst h
  exact ⟨rfl, rfl⟩

/-- Witness for C5 at a concrete input. -/
theorem claim_C5_formatter_deterministic_witness :
    (formatSnapshotWithRefs [{ role := "button", name := some "OK", selector := "#a" }]).tree
      = (formatSnapshotWithRefs [{ role := "button", name := some "OK", selector := "#a" }]).tree ∧
    (formatSnapshotWithRefs [{ role := "button", name := some "OK", selector := "#a" }]).refs
      = (formatSnapshotWithRefs [{ role := "button", name := some "OK", selector := "#a" }]).refs :=
  claim_C5_formatter_deterministic
    [{ role := "button", name := some "OK", selector := "#a" }]
    [{ role := "button", name := some "OK", selector := "#a" }] rfl

/-- Claim C6: the `i`-th node (0-based here, so ref index `i + 1`) is
assigned ref `"e" + (1-based index)` independent of content, and its assigned
`nth` is its zero-based occurrence index within its `(role, normalized-name)`
key group in input order: the loop's refs record coincides pointwise with the
spec-side `specRefsEntry`, and the returned map's keys still do. -/
theorem claim_C6_positional_refs_and_nth (nodes : List SnapshotNode) :
    (runPass nodes 0 initPassState).refs.length = nodes.length ∧
    (∀ i, (runPass nodes 0 initPassState).refs[i]? = specRefsEntry nodes i) ∧
    (∀ i, ((formatSnapshotWithRefs nodes).refs[i]?).map Prod.fst =
      (specRefsEntry nodes i).map Prod.fst) := by
  have h := formatPass_inv nodes
  refine ⟨h.refs_len, h.refs_spec, ?_⟩
  intro i
  have hmap : (formatSnapshotWithRefs nodes).refs =
      (runPass nodes 0 initPassState).refs.map (fun p =>
        if 2 ≤ (byKeyGet (runPass nodes 0 initPassState).byKey
                  (trackerKey p.2.role p.2.name)).length then p
        else (p.1, { p.2 with nth := none })) := rfl
  rw [hmap, List.getElem?_map, Option.map_map, h.refs_spec i]
  cases hn : specRefsEntry nodes i with
  | none => rfl
  | some p =>
    simp only [Option.map_some', Function.comp_apply]
    by_cases hdup : 2 ≤ (byKeyGet (runPass nodes 0 initPassState).byKey
        (trackerKey p.2.role p.2.name)).length
    · rw [if_pos hdup]
    · rw [if_neg hdup]

/-- Claim C7: a rendered line carries the `[nth=K]` token exactly when the
node's occurrence index `K` is positive (the token is the middle factor of
the line, empty iff `K = 0`); and after the full pass a ref entry keeps its
`nth` (including `nth = 0`) exactly when its key occurs at least twice in the
whole input, the `nth` field being dropped entirely for keys occurring
once. -/
theorem claim_C7_nth_token_and_duplicate_cleanup (nodes : List SnapshotNode) :
    (∀ i n, nodes[i]? = some n →
      (runPass nodes 0 initPassState).lines[i]? =
        some (lineHead n i
          ++ (if 0 < countKey (nodes.take i) (nodeKey n) then
                " [nth=" ++ toString (countKey (nodes.take i) (nodeKey n)) ++ "]"
              else "")
          ++ lineTail n)) ∧
    (∀ i n, nodes[i]? = some n →
      ((formatSnapshotWithRefs nodes).refs[i]?).map (fun p => p.2.nth) =
        some (if 2 ≤ countKey nodes (nodeKey n) then
                some (countKey (nodes.take i) (nodeKey n))
              else none)) := by
  have h := formatPass_inv nodes
  constructor
  · intro i n hin
    rw [h.lines_spec i]
    simp only [specLine, hin, Option.map_some']
    rfl
  · intro i n hin
    have hmap : (formatSnapshotWithRefs nodes).refs =
        (runPass nodes 0 initPassState).refs.map (fun p =>
          if 2 ≤ (byKeyGet (runPass nodes 0 initPassState).byKey
                    (trackerKey p.2.role p.2.name)).length then p
          else (p.1, { p.2 with nth := none })) := rfl
    rw [hmap, List.getElem?_map, Option.map_map, h.refs_spec i]
    simp only [specRefsEntry, hin, Option.map_some', Function.comp_apply]
    have hkey : trackerKey (toLowerString n.role) (normalizeName n.name) = nodeKey n := rfl
    rw [hkey, h.byKey_spec (nodeKey n)]
    by_cases hdup : 2 ≤ countKey nodes (nodeKey n)
    · rw [if_pos hdup, if_pos hdup]
    · rw [if_neg hdup, if_neg hdup]

/-- Witness for C7 on the spec's own scenario: two `button "OK"` nodes and
one `link "Home"` node — the second button's line carries `[nth=1]`, and in
the returned map the buttons keep `nth = 0` and `nth = 1` while the link's
entry has no `nth` field. -/
theorem claim_C7_nth_token_and_duplicate_cleanup_witness :
    (runPass
      [{ role := "button", name := some "OK", selector := "#a" },
       { role := "button", name := some "OK", selector := "#b" },
       { role := "link", name := some "Home", selector := "#c" }]
      0 initPassState).lines[1]? = some "- button \"OK\" [ref=e2] [nth=1]" ∧
    ((formatSnapshotWithRefs
      [{ role := "button", name := some "OK", selector := "#a" },
       { role := "button", name := some "OK", selector := "#b" },
       { role := "link", name := some "Home", selector := "#c" }]).refs[2]?).map
        (fun p => p.2.nth) = some none :=
  ⟨((claim_C7_nth_token_and_duplicate_cleanup
      [{ role := "button", name := some "OK", selector := "#a" },
       { role := "button", name := some "OK", selector := "#b" },
       { role := "link", name := some "Home", selector := "#c" }]).1 1
      { role := "button", name := some "OK", selector := "#b" } rfl).trans (by decide),
   ((claim_C7_nth_token_and_duplicate_cleanup
      [{ role := "button", name := some "OK", selector := "#a" },
       { role := "button", name := some "OK", selector := "#b" },
       { role := "link", name := some "Home", selector := "#c" }]).2 2
      { role := "link", name := some "Home", selector := "#c" } rfl).trans (by decide)⟩

/-! ## Daemon claims -/

/-- The explicit-argument stage of `resolveTabForAction`: the target the
`tab_id` argument resolves to on its own, `none` when the fallback chain
takes over. -/
def explicitTabResolves (args : Args) : Option TabTarget :=
  match args.tab_id with
  | some (.num (.fin n)) => some (.tab n)
  | some (.str s) =>
    if s = "active" then some .active
    else
      match stringToNumber s with
      | .fin n => some (.tab n)
      | .nonfin => none
  | _ => none

theorem resolveTab_eq_fallback (st : RuntimeState) (args : Args)
    (h : explicitTabResolves args = none) :
    resolveTabForAction st args = tabFallback st := by
  rcases hx : args.tab_id with _ | v
  · simp [resolveTabForAction, hx]
  · rcases v with s | jn | _
    · by_cases ha : s = "active"
      · simp [explicitTabResolves, hx, ha] at h
      · cases hn : stringToNumber s with
        | fin n => simp [explicitTabResolves, hx, ha, hn] at h
        | nonfin => simp [resolveTabForAction, hx, ha, hn]
    · rcases jn with n | _
      · simp [explicitTabResolves, hx] at h
      · simp [resolveTabForAction, hx]
    · simp [resolveTabForAction, hx]

/-- Claim C9: tab resolution precedence — an explicit finite numeric
`tab_id`, a numeric string, or the literal `"active"` wins; otherwise the
previously selected tab; otherwise the retained snapshot's tab; otherwise
the remote-queried active tab. -/
theorem claim_C9_tab_resolution_precedence (st : RuntimeState) (args : Args) :
    (∀ n : Int, args.tab_id = some (.num (.fin n)) →
      resolveTabForAction st args = .tab n) ∧
    (args.tab_id = some (.str "active") → resolveTabForAction st args = .active) ∧
    (∀ s n, args.tab_id = some (.str s) → s ≠ "active" → stringToNumber s = .fin n →
      resolveTabForAction st args = .tab n) ∧
    (∀ t, explicitTabResolves args = none → st.selectedTabId = some t →
      resolveTabForAction st args = .tab t) ∧
    (∀ snap, explicitTabResolves args = none → st.selectedTabId = none →
      st.latestSnapshot = some snap → resolveTabForAction st args = .tab snap.tab_id) ∧
    (explicitTabResolves args = none → st.selectedTabId = none →
      st.latestSnapshot = none → resolveTabForAction st args = .active) := by
  refine ⟨?_, ?_, ?_, ?_, ?_, ?_⟩
  · intro n hx
    simp [resolveTabForAction, hx]
  · intro hx
    simp [resolveTabForAction, hx]
  · intro s n hx ha hn
    simp [resolveTabForAction, hx, ha, hn]
  · intro t hno hsel
    rw [resolveTab_eq_fallback st args hno]
    simp [tabFallback, hsel]
  · intro snap hno hsel hsnap
    rw [resolveTab_eq_fallback st args hno]
    simp [tabFallback, hsel, hsnap]
  · intro hno hsel hsnap
    rw [resolveTab_eq_fallback st args hno]
    simp [tabFallback, hsel, hsnap]

/-- Witness for C9: a state with a selected tab, and an explicit numeric
`tab_id` argument that overrides it. -/
theorem claim_C9_tab_resolution_precedence_witness :
    resolveTabForAction
      { socketOpen := true, selectedTabId := some 3 }
      { tab_id := some (.num (.fin 7)) } = .tab 7 :=
  (claim_C9_tab_resolution_precedence
    { socketOpen := true, selectedTabId := some 3 }
    { tab_id := some (.num (.fin 7)) }).1 7 rfl

/-- Claim C10: a selector argument matching ref syntax is rerouted to the
ref-addressed path (and is then subject to the `snapshot_id` requirement),
all three textual ref forms are accepted, and supplying both `ref` and
`selector` is `BAD_REQUEST`. -/
theorem claim_C10_selector_ref_reroute :
    (∀ (args : Args) s r cmd, truthyString args.ref = none →
      args.selector = some (.str s) → parseRefArg s = some r →
      resolveActionTarget args cmd = .ok (.ref r)) ∧
    (∀ (st : RuntimeState) (args : Args) s r, truthyString args.ref = none →
      args.selector = some (.str s) → parseRefArg s = some r →
      args.snapshot_id = none →
      clickPlan st args = .error (snapshotIdRequiredError .click) ∧
      (snapshotIdRequiredError .click).code = .BAD_REQUEST) ∧
    (∀ ds : List Char, ds ≠ [] → ds.all Char.isDigit →
      parseRefArg (String.mk ('e' :: ds)) = some (String.mk ('e' :: ds)) ∧
      parseRefArg (String.mk ('@' :: 'e' :: ds)) = some (String.mk ('e' :: ds)) ∧
      parseRefArg (String.mk ('r' :: 'e' :: 'f' :: '=' :: 'e' :: ds)) =
        some (String.mk ('e' :: ds))) ∧
    (∀ (args : Args) r0 s0 cmd, args.ref = some (.str r0) → r0 ≠ "" →
      args.selector = some (.str s0) → s0 ≠ "" →
      resolveActionTarget args cmd = .error (bothRefAndSelectorError cmd) ∧
      (bothRefAndSelectorError cmd).code = .BAD_REQUEST) := by
  refine ⟨?_, ?_, ?_, ?_⟩
  · intro args s r cmd href hsel hparse
    have hs : s ≠ "" := by
      intro hh
      subst hh
      simp [parseRefArg] at hparse
    have hsel2 : truthyString args.selector = some s := by
      simp [truthyString, hsel, hs]
    simp [resolveActionTarget, href, hsel2, hparse]
  · intro st args s r href hsel hparse hsid
    constructor
    · have hs : s ≠ "" := by
        intro hh
        subst hh
        simp [parseRefArg] at hparse
      have hsel2 : truthyString args.selector = some s := by
        simp [truthyString, hsel, hs]
      have htgt : resolveActionTarget args .click = .ok (.ref r) := by
        simp [resolveActionTarget, href, hsel2, hparse]
      simp [clickPlan, htgt, getRequiredSnapshotId, hsid]
    · rfl
  · intro ds h1 h2
    refine ⟨?_, ?_, ?_⟩ <;> simp [parseRefArg, h1, h2]
  · intro args r0 s0 cmd href hr0 hsel hs0
    constructor
    · simp [resolveActionTarget, truthyString, href, hsel, hr0, hs0]
    · rfl

/-- Witness for C10: `click` with `selector := "e2"` and no `ref` argument is
rerouted to the ref path and, lacking a `snapshot_id`, is rejected as a bad
request. -/
theorem claim_C10_selector_ref_reroute_witness :
    clickPlan { socketOpen := true } { selector := some (.str "e2") } =
      .error (snapshotIdRequiredError .click) :=
  ((claim_C10_selector_ref_reroute.2.1
    { socketOpen := true } { selector := some (.str "e2") } "e2" "e2"
    rfl rfl (by decide) rfl).1)

/-- Claim C1: for a ref-addressed click or fill carrying a non-empty
`snapshot_id` argument — no retained snapshot fails `NO_ACTIVE_SNAPSHOT`; a
retained snapshot with a different id fails `STALE_SNAPSHOT` with both ids in
`details`; a matching id whose ref is not a key of the refs map fails
`NO_SUCH_REF`; and only when all three checks pass is the ref translated to
its selector and forwarded. -/
theorem claim_C1_snapshot_gated_actions (st : RuntimeState) (args : Args)
    (sid r v : String)
    (hsid : args.snapshot_id = some (.str sid)) (hsidne : ¬(sid.length = 0))
    (hclick : resolveActionTarget args .click = .ok (.ref r))
    (hfill : resolveActionTarget args .fill = .ok (.ref r))
    (hval : getStringFieldValue args = .ok v) :
    (st.latestSnapshot = none →
      clickPlan st args = .error noActiveSnapshotError ∧
      fillPlan st args = .error noActiveSnapshotError ∧
      noActiveSnapshotError.code = .NO_ACTIVE_SNAPSHOT) ∧
    (∀ snap, st.latestSnapshot = some snap → ¬(sid = snap.snapshot_id) →
      clickPlan st args = .error (staleSnapshotError snap.snapshot_id sid) ∧
      fillPlan st args = .error (staleSnapshotError snap.snapshot_id sid) ∧
      (staleSnapshotError snap.snapshot_id sid).code = .STALE_SNAPSHOT ∧
      lookupRecord ((staleSnapshotError snap.snapshot_id sid).details.getD [])
        "latest_snapshot_id" = some (.str snap.snapshot_id) ∧
      lookupRecord ((staleSnapshotError snap.snapshot_id sid).details.getD [])
        "requested_snapshot_id" = some (.str sid)) ∧
    (∀ snap, st.latestSnapshot = some snap → sid = snap.snapshot_id →
      lookupRecord snap.refs r = none →
      clickPlan st args = .error (noSuchRefError r snap.snapshot_id) ∧
      fillPlan st args = .error (noSuchRefError r snap.snapshot_id) ∧
      (noSuchRefError r snap.snapshot_id).code = .NO_SUCH_REF) ∧
    (∀ snap refData, st.latestSnapshot = some snap → sid = snap.snapshot_id →
      lookupRecord snap.refs r = some refData →
      clickPlan st args = .ok (.byRef snap.snapshot_id snap.tab_id r refData.selector) ∧
      fillPlan st args = .ok (.byRef snap.snapshot_id snap.tab_id r refData.selector v)) := by
  have hreq : getRequiredSnapshotId args .click = .ok sid := by
    simp [getRequiredSnapshotId, hsid, hsidne]
  have hreqF : getRequiredSnapshotId args .fill = .ok sid := by
    simp [getRequiredSnapshotId, hsid, hsidne]
  refine ⟨?_, ?_, ?_, ?_⟩
  · intro hnone
    refine ⟨?_, ?_, rfl⟩
    · simp [clickPlan, hclick, hreq, resolveSnapshotForAction, hnone]
    · simp [fillPlan, hval, hfill, hreqF, resolveSnapshotForAction, hnone]
  · intro snap hsnap hne
    have hres : resolveSnapshotForAction st (some (.str sid)) =
        .error (staleSnapshotError snap.snapshot_id sid) := by
      simp [resolveSnapshotForAction, hsnap, hne]
    refine ⟨?_, ?_, rfl, ?_, ?_⟩
    · simp [clickPlan, hclick, hreq, hres]
    · simp [fillPlan, hval, hfill, hreqF, hres]
    · simp [staleSnapshotError, lookupRecord]
    · simp [staleSnapshotError, lookupRecord]
  · intro snap hsnap heq hlook
    have hres : resolveSnapshotForAction st (some (.str sid)) = .ok snap := by
      simp [resolveSnapshotForAction, hsnap, heq]
    refine ⟨?_, ?_, rfl⟩
    · simp [clickPlan, hclick, hreq, hres, hlook]
    · simp [fillPlan, hval, hfill, hreqF, hres, hlook]
  · intro snap refData hsnap heq hlook
    have hres : resolveSnapshotForAction st (some (.str sid)) = .ok snap := by
      simp [resolveSnapshotForAction, hsnap, heq]
    refine ⟨?_, ?_⟩
    · simp [clickPlan, hclick, hreq, hres, hlook]
    · simp [fillPlan, hval, hfill, hreqF, hres, hlook]

/-- Witness for C1: a retained snapshot `s1` with ref `e1`, a click issued
with the stale id `s0` is rejected `STALE_SNAPSHOT`. -/
theorem claim_C1_snapshot_gated_actions_witness :
    clickPlan
      { socketOpen := true
        latestSnapshot := some { snapshot_id := "s1", tab_id := 5, tree := ""
                                 refs := [("e1", { selector := "#b", role := "button" })]
                                 created_at := "t" } }
      { ref := some (.str "e1"), snapshot_id := some (.str "s0")
        value := some (.str "x") } =
      .error (staleSnapshotError "s1" "s0") :=
  ((claim_C1_snapshot_gated_actions
      { socketOpen := true
        latestSnapshot := some { snapshot_id := "s1", tab_id := 5, tree := ""
                                 refs := [("e1", { selector := "#b", role := "button" })]
                                 created_at := "t" } }
      { ref := some (.str "e1"), snapshot_id := some (.str "s0")
        value := some (.str "x") }
      "s0" "e1" "x" rfl (by decide) rfl rfl rfl).2.1
    { snapshot_id := "s1", tab_id := 5, tree := ""
      refs := [("e1", { selector := "#b", role := "button" })]
      created_at := "t" } rfl (by decide)).1

theorem findPending_remove (l : List PendingEntry) (rid : String) :
    (removePending l rid).find? (fun p => p.requestId = rid) = none := by
  rw [List.find?_eq_none]
  intro x hx
  have hmem := List.mem_filter.mp hx
  simpa using hmem.2

/-- Claim C2: a pending command whose deadline fires is rejected with
`TIMEOUT{phase: extension_response}` and leaves the correlation table; a
`RESULT` for an unknown `request_id` is logged as an orphan and delivered to
nobody; in particular a late `RESULT` after a timeout is dropped, and a
delivered `RESULT` removes its entry — delivery is exactly-once per
`request_id`. -/
theorem claim_C2_timeout_and_exactly_once_delivery :
    (∀ (st : RuntimeState) (rid : String) (p : PendingEntry),
      findPending st rid = some p →
      (handleCommandTimeout st rid).2 = some (commandTimeoutError p.command p.timeoutMs) ∧
      (commandTimeoutError p.command p.timeoutMs).code = .TIMEOUT ∧
      lookupRecord ((commandTimeoutError p.command p.timeoutMs).details.getD [])
        "phase" = some (.str "extension_response") ∧
      findPending (handleCommandTimeout st rid).1 rid = none) ∧
    (∀ (st : RuntimeState) (env : ResultEnvelope),
      findPending st env.request_id = none →
      (handleResultMessage st env).2 = none ∧
      (handleResultMessage st env).1.pendingCommands = st.pendingCommands ∧
      (handleResultMessage st env).1.events =
        truncateList st.maxEvents (st.events ++ [orphanResultEvent])) ∧
    (∀ (st : RuntimeState) (rid : String) (p : PendingEntry) (env : ResultEnvelope),
      findPending st rid = some p → env.request_id = rid →
      (handleResultMessage (handleCommandTimeout st rid).1 env).2 = none) ∧
    (∀ (st : RuntimeState) (env : ResultEnvelope) (p : PendingEntry),
      findPending st env.request_id = some p →
      ((handleResultMessage st env).2).isSome = true ∧
      findPending (handleResultMessage st env).1 env.request_id = none) := by
  have hafter : ∀ (st : RuntimeState) (rid : String) (p : PendingEntry),
      findPending st rid = some p →
      findPending (handleCommandTimeout st rid).1 rid = none := by
    intro st rid p hp
    simp only [handleCommandTimeout, hp]
    exact findPending_remove st.pendingCommands rid
  refine ⟨?_, ?_, ?_, ?_⟩
  · intro st rid p hp
    refine ⟨?_, rfl, ?_, hafter st rid p hp⟩
    · simp [handleCommandTimeout, hp]
    · simp [commandTimeoutError, lookupRecord]
  · intro st env hnone
    simp [handleResultMessage, hnone]
  · intro st rid p env hp hrid
    subst hrid
    have hnone := hafter st env.request_id p hp
    simp [handleResultMessage, hnone]
  · intro st env p hp
    constructor
    · simp only [handleResultMessage, hp]
      by_cases hok : env.ok <;> simp [hok]
    · simp only [handleResultMessage, hp]
      by_cases hok : env.ok <;>
        simpa [hok, findPending] using findPending_remove st.pendingCommands env.request_id

/-- Witness for C2: a registered command `r1` that times out is rejected with
the `extension_response`-phase timeout error. -/
theorem claim_C2_timeout_and_exactly_once_delivery_witness :
    (handleCommandTimeout
      { socketOpen := true, pendingCommands := [⟨"r1", "click", 1000⟩] } "r1").2 =
      some (commandTimeoutError "click" 1000) :=
  (claim_C2_timeout_and_exactly_once_delivery.1
    { socketOpen := true, pendingCommands := [⟨"r1", "click", 1000⟩] }
    "r1" ⟨"r1", "click", 1000⟩ rfl).1

/-- Claim C3: on transport close every outstanding command is rejected with
`DISCONNECTED` and `recovery.reconnect_required = true`, the table is
emptied, the connection handle is cleared, the disconnect reason is recorded
and the reconnect-attempt counter is incremented. -/
theorem claim_C3_close_rejects_all_pending (st : RuntimeState) (code : Int)
    (reasonRaw : String) :
    (onSocketClose st code reasonRaw).1.pendingCommands = [] ∧
    (onSocketClose st code reasonRaw).1.socketOpen = false ∧
    (onSocketClose st code reasonRaw).1.lastDisconnectReason =
      some (if reasonRaw = "" then "close_code_" ++ toString code else reasonRaw) ∧
    (onSocketClose st code reasonRaw).1.reconnectAttempts = st.reconnectAttempts + 1 ∧
    (onSocketClose st code reasonRaw).2 =
      st.pendingCommands.map (fun p => (p.requestId,
        bridgeClosedError (if reasonRaw = "" then "close_code_" ++ toString code
                           else reasonRaw))) ∧
    (∀ d ∈ (onSocketClose st code reasonRaw).2,
      d.2.code = .DISCONNECTED ∧
      (d.2.recovery.getD {}).reconnect_required = some true) := by
  refine ⟨rfl, rfl, rfl, rfl, rfl, ?_⟩
  intro d hd
  simp only [onSocketClose, rejectAllPending, List.mem_map] at hd
  obtain ⟨p, _, hpd⟩ := hd
  subst hpd
  exact ⟨rfl, rfl⟩

/-- Witness for C3 on a state with one pending command. -/
theorem claim_C3_close_rejects_all_pending_witness :
    (onSocketClose
      { socketOpen := true, pendingCommands := [⟨"r1", "click", 1000⟩] }
      1000 "gone").2 = [("r1", bridgeClosedError "gone")] :=
  ((claim_C3_close_rejects_all_pending
    { socketOpen := true, pendingCommands := [⟨"r1", "click", 1000⟩] }
    1000 "gone").2.2.2.2.1).trans (by decide)

/-- Claim C4: a command executed with no live connection is rejected
immediately with `DISCONNECTED` under `queue_mode = fail` (state unchanged,
no waiter registered), registers a `ConnectionWaiter` carrying the
`timeout_ms` deadline under `queue_mode = hold`, and a registered waiter
whose deadline fires is rejected with `TIMEOUT{phase: wait_for_extension}`. -/
theorem claim_C4_disconnected_queue_modes (st : RuntimeState) (tms fid : Nat)
    (hdis : st.socketOpen = false) :
    (ensureBridgeConnected st tms .fail fid =
      (st, .rejectedNow (disconnectedIdleError st.lastDisconnectReason)) ∧
     (disconnectedIdleError st.lastDisconnectReason).code = .DISCONNECTED) ∧
    (ensureBridgeConnected st tms .hold fid =
      ({ st with connectionWaiters := st.connectionWaiters ++ [⟨fid, tms⟩] },
       .waiting fid)) ∧
    (∀ (stW : RuntimeState) (wid : Nat) (w : WaiterEntry),
      findWaiter stW wid = some w →
      (handleWaiterTimeout stW wid).2 = some (waitTimeoutError w.timeoutMs) ∧
      (waitTimeoutError w.timeoutMs).code = .TIMEOUT ∧
      lookupRecord ((waitTimeoutError w.timeoutMs).details.getD []) "phase" =
        some (.str "wait_for_extension")) := by
  refine ⟨⟨?_, rfl⟩, ?_, ?_⟩
  · simp [ensureBridgeConnected, hdis]
  · simp [ensureBridgeConnected, hdis]
  · intro stW wid w hw
    refine ⟨?_, rfl, ?_⟩
    · simp [handleWaiterTimeout, hw]
    · simp [waitTimeoutError, lookupRecord]

/-- Witness for C4: `queue_mode = fail` on a never-connected state. -/
theorem claim_C4_disconnected_queue_modes_witness :
    ensureBridgeConnected { socketOpen := false } 1000 .fail 0 =
      ({ socketOpen := false }, .rejectedNow (disconnectedIdleError none)) :=
  (claim_C4_disconnected_queue_modes { socketOpen := false } 1000 0 rfl).1.1

/-- Counterexample to claim C8 as stated: the request `GET /nope` produces a
failure body whose code is `BAD_REQUEST` (not `UNAUTHORIZED`), yet the HTTP
status is 404, not 400. -/
theorem claim_C8_counterexample :
    handleHttpRequest { method := "GET", url := "/nope" } (.ok ()) =
      (404, .failure notFoundError) ∧
    ¬(notFoundError.code = .UNAUTHORIZED) ∧
    ¬((404 : Nat) = 400) ∧ ¬((404 : Nat) = 401) := by
  refine ⟨?_, by decide, by decide, by decide⟩
  rfl

/-- Claim C8 (amended): for requests routed to the command endpoint
(`POST /v1/command`), a failure is answered 401 exactly when the structured
error's code is `UNAUTHORIZED` and 400 for every other code; a request to any
other method/path is answered 404 with a `BAD_REQUEST` error body. -/
theorem claim_C8_http_status_mapping (req : HttpRequest) (e : StructuredError)
    (hm : req.method = "POST") (hu : req.url = "/v1/command") :
    handleHttpRequest req (.error e) =
      ((if e.code = .UNAUTHORIZED then 401 else 400), .failure e) ∧
    (e.code = .UNAUTHORIZED → (handleHttpRequest req (.error e)).1 = 401) ∧
    (¬(e.code = .UNAUTHORIZED) → (handleHttpRequest req (.error e)).1 = 400) ∧
    (∀ (rq : HttpRequest) (ex : Except StructuredError Unit),
      ¬(rq.method = "GET" ∧ rq.url = "/health") →
      ¬(rq.method = "POST" ∧ rq.url = "/v1/command") →
      handleHttpRequest rq ex = (404, .failure notFoundError)) := by
  have hbase : handleHttpRequest req (.error e) =
      ((if e.code = .UNAUTHORIZED then 401 else 400), .failure e) := by
    simp [handleHttpRequest, hm, hu]
  refine ⟨hbase, ?_, ?_, ?_⟩
  · intro hcode
    rw [hbase]
    simp [hcode]
  · intro hcode
    rw [hbase]
    simp [hcode]
  · intro rq ex hnh hnc
    simp [handleHttpRequest, hnh, hnc]

/-- Witness for C8 (amended): an `UNAUTHORIZED` failure on the command
endpoint is answered 401. -/
theorem claim_C8_http_status_mapping_witness :
    handleHttpRequest { method := "POST", url := "/v1/command" }
      (.error { code := .UNAUTHORIZED, message := "Invalid token" }) =
      (401, .failure { code := .UNAUTHORIZED, message := "Invalid token" }) :=
  ((claim_C8_http_status_mapping { method := "POST", url := "/v1/command" }
    { code := .UNAUTHORIZED, message := "Invalid token" } rfl rfl).1).trans (by decide)

end HumanBrowser
